import Mathlib

/-
Verification of the Agentic RAG control plane:
- src/tools/registry.py   (tool registry, executor, parameter validation)
- src/agent_state_machine.py  (agent controller state machine)

Shallow embedding: Python dicts become insertion-ordered association
lists, Python runtime values become the inductive PyVal, raised
exceptions become Except.error carrying str(exc), and the controller
while-loop becomes a fuel-indexed recursion that records the list of
states entered (the trace).
-/

namespace ControlPlane

/-! ## Python value universe (tools/registry.py uses Dict[str, Any]) -/

/-- The runtime types that appear in tool parameter schemas
(`param_schema: Dict[str, type]`). -/
inductive PyType where
  | str
  | int
  | bool
  | list
  | dict
deriving DecidableEq

/-- Python `type.__name__`, used in the Invalid-type error message. -/
def PyType.name : PyType → String
  | PyType.str => "str"
  | PyType.int => "int"
  | PyType.bool => "bool"
  | PyType.list => "list"
  | PyType.dict => "dict"

/-- Python runtime values that flow through tool params and results. -/
inductive PyVal where
  | str (s : String)
  | int (n : Int)
  | bool (b : Bool)
  | list (elems : List PyVal)
  | dict (entries : List (String × PyVal))
  | none

/-- Python `isinstance(value, expected_type)` for the embedded values.
In Python, `bool` is a subclass of `int`, so `isinstance(True, int)`
is `True`; every other pairing matches only its own type. -/
def isinstance : PyVal → PyType → Bool
  | PyVal.str _, PyType.str => true
  | PyVal.int _, PyType.int => true
  | PyVal.bool _, PyType.bool => true
  | PyVal.bool _, PyType.int => true
  | PyVal.list _, PyType.list => true
  | PyVal.dict _, PyType.dict => true
  | _, _ => false

/-- Python `key in d` for an insertion-ordered dict. -/
def dict_contains (d : List (String × α)) (key : String) : Bool :=
  d.any (fun kv => kv.1 == key)

/-- Python `d.get(key)` / `d[key]` lookup for an insertion-ordered dict. -/
def dict_get? (d : List (String × α)) (key : String) : Option α :=
  (d.find? (fun kv => kv.1 == key)).map Prod.snd

/-- Python `str()` of a KeyError: the message is wrapped in single
quotes (`str(KeyError("x"))` is the string `x` surrounded by quotes). -/
def py_keyerror_str (msg : String) : String :=
  String.singleton (Char.ofNat 39) ++ msg ++ String.singleton (Char.ofNat 39)

/-! ## tools/registry.py: data types -/

/-- `ToolRequest`: a proposed tool invocation from the control plane. -/
structure ToolRequest where
  tool_name : String
  params : List (String × PyVal)

/-- `ToolResult`: structured result returned by the executor. -/
structure ToolResult where
  tool_name : String
  ok : Bool
  data : List (String × PyVal)
  error : Option String := Option.none

/-- A registered tool (the `Tool` Protocol): name, description, schema,
required parameter names, and the body. The body returns
`Except String` so that a raised exception is modelled as
`Except.error (str of the exception)`. -/
structure Tool where
  name : String
  description : String
  param_schema : List (String × PyType)
  required_params : List String
  run : List (String × PyVal) → Except String (List (String × PyVal))

/-- `ToolRegistry`: explicit insertion-ordered mapping name to tool. -/
structure ToolRegistry where
  tools : List (String × Tool)

/-- `ToolRegistry.register_tool`: raises `ValueError` (modelled as
`Except.error` of its message) when the name is already present,
otherwise inserts; the raise happens before any mutation, so on
failure the registry is unchanged. -/
def ToolRegistry.register_tool (r : ToolRegistry) (tool : Tool) : Except String ToolRegistry :=
  if dict_contains r.tools tool.name then
    Except.error ("Tool already registered: " ++ tool.name)
  else
    Except.ok { tools := r.tools ++ [(tool.name, tool)] }

/-- `ToolRegistry.get_tool`: raises `KeyError` (modelled as
`Except.error` of the message passed to the KeyError) when absent. -/
def ToolRegistry.get_tool (r : ToolRegistry) (name : String) : Except String Tool :=
  match dict_get? r.tools name with
  | Option.none => Except.error ("Tool not found: " ++ name)
  | Option.some tool => Except.ok tool

/-! ## tools/registry.py: ToolExecutor._validate_params

Three loops, each returning at the first violation:
unexpected keys (in params iteration order), then missing required
keys (in required_params order), then type checks (in params order). -/

/-- First loop: `for key in params: if key not in tool.param_schema:
return f"Unexpected parameter: {key}"`. -/
def check_unexpected (schema : List (String × PyType)) : List (String × PyVal) → Option String
  | [] => Option.none
  | (key, _) :: rest =>
    if dict_contains schema key then check_unexpected schema rest
    else Option.some ("Unexpected parameter: " ++ key)

/-- Second loop: `for key in tool.required_params: if key not in params:
return f"Missing required parameter: {key}"`. -/
def check_missing (params : List (String × PyVal)) : List String → Option String
  | [] => Option.none
  | key :: rest =>
    if dict_contains params key then check_missing params rest
    else Option.some ("Missing required parameter: " ++ key)

/-- Third loop: `for key, value in params.items():` look up the
expected type and test `isinstance`. The `Option.none` branch of the
lookup is unreachable when the first loop passed (every key is in the
schema); there Python would raise a KeyError. -/
def check_types (schema : List (String × PyType)) : List (String × PyVal) → Option String
  | [] => Option.none
  | (key, value) :: rest =>
    match dict_get? schema key with
    | Option.none => Option.none
    | Option.some expected_type =>
      if isinstance value expected_type then check_types schema rest
      else Option.some ("Invalid type for " ++ key ++ ": expected " ++ expected_type.name)

/-- `ToolExecutor._validate_params`: the three loops in order. -/
def validate_params (tool : Tool) (params : List (String × PyVal)) : Option String :=
  match check_unexpected tool.param_schema params with
  | Option.some e => Option.some e
  | Option.none =>
    match check_missing params tool.required_params with
    | Option.some e => Option.some e
    | Option.none => check_types tool.param_schema params

/-- `ToolExecutor.execute`: look up the tool (a KeyError becomes an
`ok:false` result carrying `str(exc)`, which for a KeyError is the
quoted message), then validate parameters, then run the body inside
the failure boundary (`except Exception`). -/
def ToolExecutor.execute (r : ToolRegistry) (request : ToolRequest) : ToolResult :=
  match r.get_tool request.tool_name with
  | Except.error msg =>
    { tool_name := request.tool_name, ok := false, data := [],
      error := Option.some (py_keyerror_str msg) }
  | Except.ok tool =>
    match validate_params tool request.params with
    | Option.some validation_error =>
      { tool_name := tool.name, ok := false, data := [], error := Option.some validation_error }
    | Option.none =>
      match tool.run request.params with
      | Except.ok output => { tool_name := tool.name, ok := true, data := output }
      | Except.error msg =>
        { tool_name := tool.name, ok := false, data := [], error := Option.some msg }

/-! ## tools/registry.py: MockSQLTool -/

/-- The two mock rows of `MockSQLTool.run`. -/
def sql_rows : List PyVal :=
  [PyVal.dict [("id", PyVal.int 1), ("value", PyVal.str "alpha")],
   PyVal.dict [("id", PyVal.int 2), ("value", PyVal.str "beta")]]

/-- A value usable as a Python slice bound: `int`, or `bool` (which
coerces through its int value, `True` being `1`). -/
def py_index : PyVal → Option Int
  | PyVal.int n => Option.some n
  | PyVal.bool b => Option.some (if b then 1 else 0)
  | _ => Option.none

/-- Python `xs[:stop]`: a negative stop counts from the end, and the
result is clamped to the available elements. -/
def py_slice_to (xs : List PyVal) (stop : Int) : List PyVal :=
  xs.take (if stop < 0 then ((xs.length : Int) + stop).toNat else stop.toNat)

/-- `MockSQLTool.run`: `params["query"]` (a KeyError if absent, whose
`str()` is the quoted key), `params.get("limit", 10)`, and the row
list sliced by the limit. -/
def mock_sql_run (params : List (String × PyVal)) : Except String (List (String × PyVal)) :=
  match dict_get? params "query" with
  | Option.none => Except.error (py_keyerror_str "query")
  | Option.some query =>
    let limit := (dict_get? params "limit").getD (PyVal.int 10)
    match py_index limit with
    | Option.none =>
      Except.error ("slice indices must be integers or None or have an __index__ method")
    | Option.some n =>
      Except.ok [("rows", PyVal.list (py_slice_to sql_rows n)), ("query", query)]

/-- `MockSQLTool`: schema `query: str` (required) and `limit: int`. -/
def MockSQLTool : Tool :=
  { name := "mock_sql"
    description := "Execute a predefined SQL query against a mock database."
    param_schema := [("query", PyType.str), ("limit", PyType.int)]
    required_params := ["query"]
    run := mock_sql_run }

/-- The registry built in registry.py, restricted to `mock_sql`: the
mock vector-search tool returns floating-point scores, which are
outside the embedded value universe, and no claim touches it. -/
def demo_registry : ToolRegistry := { tools := [("mock_sql", MockSQLTool)] }

/-! ## Spec-side validation order (for the refinement claim C6)

Modelled from the spec: section 4.2 states validation is
exhaustive-on-first-failure in the order a (unexpected) to b (missing)
to c (type), keys considered in their natural iteration order. The
definitions below express each stage as the first list element
violating that stage, to be compared with the source's loops. -/

/-- Spec stage a: the first params key not in the schema. -/
def spec_unexpected_key (schema : List (String × PyType)) (params : List (String × PyVal)) : Option String :=
  (params.find? (fun kv => !(dict_contains schema kv.1))).map
    (fun kv => "Unexpected parameter: " ++ kv.1)

/-- Spec stage b: the first required key absent from params. -/
def spec_missing_key (required : List String) (params : List (String × PyVal)) : Option String :=
  (required.find? (fun key => !(dict_contains params key))).map
    (fun key => "Missing required parameter: " ++ key)

/-- Spec stage c: the first params entry whose value fails the
isinstance check against its declared schema type. -/
def spec_bad_type (schema : List (String × PyType)) (params : List (String × PyVal)) : Option String :=
  (params.find? (fun kv =>
      match dict_get? schema kv.1 with
      | Option.none => false
      | Option.some t => !(isinstance kv.2 t))).bind
    (fun kv => (dict_get? schema kv.1).map
      (fun t => "Invalid type for " ++ kv.1 ++ ": expected " ++ t.name))

/-- Spec-side validation: first violation in the order a, b, c. -/
def spec_first_violation (tool : Tool) (params : List (String × PyVal)) : Option String :=
  match spec_unexpected_key tool.param_schema params with
  | Option.some e => Option.some e
  | Option.none =>
    match spec_missing_key tool.required_params params with
    | Option.some e => Option.some e
    | Option.none => spec_bad_type tool.param_schema params

/-! ## agent_state_machine.py: data model -/

/-- The states of `AgentState`. -/
inductive AgentState where
  | ENTRY
  | PLAN
  | EXECUTE_TOOL
  | EVALUATE
  | REFLECT
  | GENERATE
  | END
deriving DecidableEq

/-- The `AgentContext` dataclass, with its field defaults. The Python
ints `retries` and `max_retries` are Nat: `retries` starts at 0 and is
only incremented, and `max_retries` is specified non-negative. -/
structure AgentContext where
  user_query : String
  intent : Option String := Option.none
  planned_tools : List String := []
  tool_results : List String := []
  evaluation : Option String := Option.none
  retries : Nat := 0
  max_retries : Nat := 1
deriving DecidableEq

/-- `AgentController._plan`: placeholder intent and plan. -/
def plan_step (c : AgentContext) : AgentContext :=
  { c with intent := Option.some ("answer_user_query"), planned_tools := ["mock_sql"] }

/-- `AgentController._execute_tool`: append the placeholder result of
the first planned tool, or the no-tool marker. -/
def execute_tool_step (c : AgentContext) : AgentContext :=
  match c.planned_tools with
  | tool_name :: _ =>
    { c with tool_results := c.tool_results ++ [tool_name ++ "_result_placeholder"] }
  | [] => { c with tool_results := c.tool_results ++ ["no_tool_planned"] }

/-- `AgentController._reflect`: increment `retries` when the
evaluation is not the string sufficient. An unset evaluation also
differs from sufficient, exactly as `None != "sufficient"` does. -/
def reflect_step (c : AgentContext) : AgentContext :=
  if c.evaluation = Option.some ("sufficient") then c
  else { c with retries := c.retries + 1 }

/-- `AgentController._transition`, a function of the current state and
the context as already mutated by the state handler. -/
def transition (st : AgentState) (c : AgentContext) : AgentState :=
  match st with
  | AgentState.ENTRY => AgentState.PLAN
  | AgentState.PLAN => AgentState.EXECUTE_TOOL
  | AgentState.EXECUTE_TOOL => AgentState.EVALUATE
  | AgentState.EVALUATE => AgentState.REFLECT
  | AgentState.REFLECT =>
    if c.evaluation = Option.some ("sufficient") then AgentState.GENERATE
    else if c.retries < c.max_retries then AgentState.EXECUTE_TOOL
    else AgentState.GENERATE
  | AgentState.GENERATE => AgentState.END
  | AgentState.END => AgentState.END

/-- A controller configuration: current state, context, and the count
of EVALUATE visits so far (used to index the evaluation strategy). -/
structure Config where
  state : AgentState
  ctx : AgentContext
  evalIdx : Nat
deriving DecidableEq

/-- One `_step` call. The controller is parametrized by the evaluation
strategy `ev`, giving the verdict string of the n-th EVALUATE visit:
the spec injects planning/evaluation as pluggable capabilities, and
the source's `_evaluate` is the constant strategy `code_evaluation`
below. All other handlers are the source's. ENTRY raises `ValueError`
(modelled as `Except.error` of its message) on an empty query;
GENERATE is the source's placeholder no-op. -/
def step_in_state (ev : Nat → String) (cfg : Config) : Except String Config :=
  match cfg.state with
  | AgentState.ENTRY =>
    if cfg.ctx.user_query = "" then Except.error ("user_query must be non-empty")
    else Except.ok cfg
  | AgentState.PLAN => Except.ok { cfg with ctx := plan_step cfg.ctx }
  | AgentState.EXECUTE_TOOL => Except.ok { cfg with ctx := execute_tool_step cfg.ctx }
  | AgentState.EVALUATE =>
    Except.ok { cfg with ctx := { cfg.ctx with evaluation := Option.some (ev cfg.evalIdx) },
                         evalIdx := cfg.evalIdx + 1 }
  | AgentState.REFLECT => Except.ok { cfg with ctx := reflect_step cfg.ctx }
  | AgentState.GENERATE => Except.ok cfg
  | AgentState.END => Except.ok cfg

/-- One iteration of the `run` while-loop body: `self._step()` then
`self.state = self._transition()`, where `_transition` reads the state
unchanged by `_step` and the context as mutated by it. -/
def machine_step (ev : Nat → String) (cfg : Config) : Except String Config :=
  match step_in_state ev cfg with
  | Except.error e => Except.error e
  | Except.ok cfg2 => Except.ok { cfg2 with state := transition cfg2.state cfg2.ctx }

/-- `AgentController.run` with fuel, recording the trace of
configurations entered (ENTRY through END inclusive). `Option.none`
means the fuel ran out; `Except.error` means a handler raised. -/
def run_loop (ev : Nat → String) : Nat → Config → Option (Except String (List Config))
  | 0, _ => Option.none
  | fuel + 1, cfg =>
    if cfg.state = AgentState.END then Option.some (Except.ok [cfg])
    else
      match machine_step ev cfg with
      | Except.error e => Option.some (Except.error e)
      | Except.ok cfg2 =>
        match run_loop ev fuel cfg2 with
        | Option.none => Option.none
        | Option.some (Except.error e) => Option.some (Except.error e)
        | Option.some (Except.ok tr) => Option.some (Except.ok (cfg :: tr))

/-- The source's `_evaluate`: deterministic, always sufficient. -/
def code_evaluation : Nat → String := fun _ => "sufficient"

/-- The always-insufficient strategy used by the retry scenarios. -/
def insufficient_evaluation : Nat → String := fun _ => "insufficient"

/-- The initial configuration of `run_once`: a fresh context with the
given query and all dataclass defaults. -/
def init_config (user_query : String) : Config :=
  { state := AgentState.ENTRY, ctx := { user_query := user_query }, evalIdx := 0 }

/-- An initial configuration with an explicit `max_retries`. -/
def init_config_with (user_query : String) (m : Nat) : Config :=
  { state := AgentState.ENTRY, ctx := { user_query := user_query, max_retries := m }, evalIdx := 0 }

/-- The last configuration of a trace. -/
def lastConfig : List Config → Option Config
  | [] => Option.none
  | cfg :: rest =>
    match lastConfig rest with
    | Option.none => Option.some cfg
    | Option.some c => Option.some c

/-- The context a successful run returns (the final configuration's). -/
def final_context : Option (Except String (List Config)) → Option AgentContext
  | Option.some (Except.ok tr) => (lastConfig tr).map Config.ctx
  | _ => Option.none

/-- The common final context of every successful run of the source's
controller: all fields are placeholder constants except the query. -/
def code_final_ctx (user_query : String) : AgentContext :=
  { user_query := user_query
    intent := Option.some ("answer_user_query")
    planned_tools := ["mock_sql"]
    tool_results := ["mock_sql_result_placeholder"]
    evaluation := Option.some ("sufficient")
    retries := 0
    max_retries := 1 }

/-- The full trace of the source's controller on a non-empty query:
seven states, one EXECUTE_TOOL visit, no retry (evaluation is always
sufficient in the source). -/
def codeTrace (q : String) : List Config :=
  [ { state := AgentState.ENTRY, ctx := { user_query := q }, evalIdx := 0 },
    { state := AgentState.PLAN, ctx := { user_query := q }, evalIdx := 0 },
    { state := AgentState.EXECUTE_TOOL,
      ctx := { user_query := q, intent := Option.some ("answer_user_query"),
               planned_tools := ["mock_sql"] }, evalIdx := 0 },
    { state := AgentState.EVALUATE,
      ctx := { user_query := q, intent := Option.some ("answer_user_query"),
               planned_tools := ["mock_sql"],
               tool_results := ["mock_sql_result_placeholder"] }, evalIdx := 0 },
    { state := AgentState.REFLECT, ctx := code_final_ctx q, evalIdx := 1 },
    { state := AgentState.GENERATE, ctx := code_final_ctx q, evalIdx := 1 },
    { state := AgentState.END, ctx := code_final_ctx q, evalIdx := 1 } ]

/-- `run_once`: build a default context from the query and run the
controller. Fuel 7 is exactly the trace length of the source's
always-sufficient run (lemma `code_run_seven`); the Python loop has no
fuel, and `Option.none` cannot occur for a non-empty query. -/
def run_once (user_query : String) : Option AgentContext :=
  final_context (run_loop code_evaluation 7 (init_config user_query))

/-- The context after the EXECUTE_TOOL and EVALUATE handlers of one
loop cycle starting at evaluation index `k`. -/
def cycle_ctx (ev : Nat → String) (c : AgentContext) (k : Nat) : AgentContext :=
  { execute_tool_step c with evaluation := Option.some (ev k) }

/-- The context after the full EXECUTE_TOOL, EVALUATE, REFLECT cycle. -/
def after_reflect (ev : Nat → String) (c : AgentContext) (k : Nat) : AgentContext :=
  reflect_step (cycle_ctx ev c k)

/-! ## Helper lemmas: unfolding and composing the run loop -/

theorem run_loop_end (ev : Nat → String) (cfg : Config) (fuel : Nat)
    (h : cfg.state = AgentState.END) :
    run_loop ev (fuel + 1) cfg = Option.some (Except.ok [cfg]) := by
  simp [run_loop, h]

theorem run_loop_cons (ev : Nat → String) (cfg cfg2 : Config) (fuel : Nat) (tr : List Config)
    (h : cfg.state ≠ AgentState.END) (h2 : machine_step ev cfg = Except.ok cfg2)
    (h3 : run_loop ev fuel cfg2 = Option.some (Except.ok tr)) :
    run_loop ev (fuel + 1) cfg = Option.some (Except.ok (cfg :: tr)) := by
  simp [run_loop, h, h2, h3]

theorem run_loop_mono (ev : Nat → String) :
    ∀ f1 f2 : Nat, ∀ cfg : Config, ∀ r : Except String (List Config), f1 ≤ f2 →
    run_loop ev f1 cfg = Option.some r → run_loop ev f2 cfg = Option.some r := by
  intro f1
  induction f1 with
  | zero => intro f2 cfg r _ h; simp [run_loop] at h
  | succ f ih =>
    intro f2 cfg r hle h
    obtain ⟨f2p, rfl⟩ : ∃ k, f2 = k + 1 := ⟨f2 - 1, by omega⟩
    by_cases hend : cfg.state = AgentState.END
    · simp only [run_loop, if_pos hend] at h ⊢
      exact h
    · simp only [run_loop, if_neg hend] at h ⊢
      cases hms : machine_step ev cfg with
      | error e => simp only [hms] at h ⊢; exact h
      | ok cfg2 =>
        simp only [hms] at h ⊢
        cases hin : run_loop ev f cfg2 with
        | none => simp [hin] at h
        | some r2 =>
          have h2 : run_loop ev f2p cfg2 = Option.some r2 := ih f2p cfg2 r2 (by omega) hin
          simp only [hin] at h
          simp only [h2]
          exact h

/-! ## Helper lemmas: one machine step from each state -/

theorem machine_step_ENTRY (ev : Nat → String) (c : AgentContext) (k : Nat)
    (h : c.user_query ≠ "") :
    machine_step ev { state := AgentState.ENTRY, ctx := c, evalIdx := k } =
      Except.ok { state := AgentState.PLAN, ctx := c, evalIdx := k } := by
  simp [machine_step, step_in_state, h, transition]

theorem machine_step_PLAN (ev : Nat → String) (c : AgentContext) (k : Nat) :
    machine_step ev { state := AgentState.PLAN, ctx := c, evalIdx := k } =
      Except.ok { state := AgentState.EXECUTE_TOOL, ctx := plan_step c, evalIdx := k } := rfl

theorem machine_step_EXECUTE (ev : Nat → String) (c : AgentContext) (k : Nat) :
    machine_step ev { state := AgentState.EXECUTE_TOOL, ctx := c, evalIdx := k } =
      Except.ok { state := AgentState.EVALUATE, ctx := execute_tool_step c, evalIdx := k } := rfl

theorem machine_step_EVALUATE (ev : Nat → String) (c : AgentContext) (k : Nat) :
    machine_step ev { state := AgentState.EVALUATE, ctx := c, evalIdx := k } =
      Except.ok { state := AgentState.REFLECT,
                  ctx := { c with evaluation := Option.some (ev k) }, evalIdx := k + 1 } := rfl

theorem machine_step_REFLECT (ev : Nat → String) (c : AgentContext) (k : Nat) :
    machine_step ev { state := AgentState.REFLECT, ctx := c, evalIdx := k } =
      Except.ok { state := transition AgentState.REFLECT (reflect_step c),
                  ctx := reflect_step c, evalIdx := k } := rfl

theorem machine_step_GENERATE (ev : Nat → String) (c : AgentContext) (k : Nat) :
    machine_step ev { state := AgentState.GENERATE, ctx := c, evalIdx := k } =
      Except.ok { state := AgentState.END, ctx := c, evalIdx := k } := rfl

/-! ## Helper lemmas: context fields preserved by the handlers -/

theorem execute_tool_step_retries (c : AgentContext) :
    (execute_tool_step c).retries = c.retries := by
  cases h : c.planned_tools <;> simp [execute_tool_step, h]

theorem execute_tool_step_max (c : AgentContext) :
    (execute_tool_step c).max_retries = c.max_retries := by
  cases h : c.planned_tools <;> simp [execute_tool_step, h]

theorem reflect_step_max (c : AgentContext) :
    (reflect_step c).max_retries = c.max_retries := by
  unfold reflect_step; split <;> rfl

theorem reflect_step_evaluation (c : AgentContext) :
    (reflect_step c).evaluation = c.evaluation := by
  unfold reflect_step; split <;> rfl

theorem reflect_step_retries_of_ne (c : AgentContext)
    (h : c.evaluation ≠ Option.some ("sufficient")) :
    (reflect_step c).retries = c.retries + 1 := by
  simp [reflect_step, h]

theorem reflect_step_of_eq (c : AgentContext)
    (h : c.evaluation = Option.some ("sufficient")) : reflect_step c = c := by
  simp [reflect_step, h]

/-! ## Helper lemmas: one loop cycle from EXECUTE_TOOL -/

theorem run_loop_gen2 (ev : Nat → String) (c : AgentContext) (k fuel : Nat) :
    run_loop ev (fuel + 2) { state := AgentState.GENERATE, ctx := c, evalIdx := k } =
      Option.some (Except.ok
        [{ state := AgentState.GENERATE, ctx := c, evalIdx := k },
         { state := AgentState.END, ctx := c, evalIdx := k }]) := by
  exact run_loop_cons ev _ _ (fuel + 1) _ (by simp) (machine_step_GENERATE ev c k)
    (run_loop_end ev _ fuel rfl)


theorem lastConfig_cons (a : Config) (l : List Config) (c : Config)
    (h : lastConfig l = Option.some c) : lastConfig (a :: l) = Option.some c := by
  simp [lastConfig, h]

theorem cycle_ctx_retries (ev : Nat → String) (c : AgentContext) (k : Nat) :
    (cycle_ctx ev c k).retries = c.retries := by
  have h : (cycle_ctx ev c k).retries = (execute_tool_step c).retries := rfl
  rw [h, execute_tool_step_retries]

theorem cycle_ctx_max (ev : Nat → String) (c : AgentContext) (k : Nat) :
    (cycle_ctx ev c k).max_retries = c.max_retries := by
  have h : (cycle_ctx ev c k).max_retries = (execute_tool_step c).max_retries := rfl
  rw [h, execute_tool_step_max]

theorem cycle_ctx_evaluation (ev : Nat → String) (c : AgentContext) (k : Nat) :
    (cycle_ctx ev c k).evaluation = Option.some (ev k) := rfl

theorem after_reflect_max (ev : Nat → String) (c : AgentContext) (k : Nat) :
    (after_reflect ev c k).max_retries = c.max_retries := by
  rw [after_reflect, reflect_step_max, cycle_ctx_max]

theorem after_reflect_evaluation (ev : Nat → String) (c : AgentContext) (k : Nat) :
    (after_reflect ev c k).evaluation = Option.some (ev k) := by
  rw [after_reflect, reflect_step_evaluation, cycle_ctx_evaluation]

theorem after_reflect_retries_of_suff (ev : Nat → String) (c : AgentContext) (k : Nat)
    (h : ev k = "sufficient") : (after_reflect ev c k).retries = c.retries := by
  rw [after_reflect, reflect_step_of_eq, cycle_ctx_retries]
  rw [cycle_ctx_evaluation, h]

theorem after_reflect_retries_of_ne (ev : Nat → String) (c : AgentContext) (k : Nat)
    (h : ev k ≠ "sufficient") : (after_reflect ev c k).retries = c.retries + 1 := by
  rw [after_reflect, reflect_step_retries_of_ne, cycle_ctx_retries]
  rw [cycle_ctx_evaluation]
  simpa using h

theorem after_reflect_retries_ge (ev : Nat → String) (c : AgentContext) (k : Nat) :
    c.retries ≤ (after_reflect ev c k).retries := by
  by_cases h : ev k = "sufficient"
  · rw [after_reflect_retries_of_suff ev c k h]
  · rw [after_reflect_retries_of_ne ev c k h]
    omega

/-! ## Helper lemmas: the REFLECT transition after one cycle -/

theorem transition_reflect_suff (ev : Nat → String) (c : AgentContext) (k : Nat)
    (h : ev k = "sufficient") :
    transition AgentState.REFLECT (after_reflect ev c k) = AgentState.GENERATE := by
  simp only [transition]
  rw [if_pos]
  rw [after_reflect_evaluation, h]

theorem transition_reflect_retry (ev : Nat → String) (c : AgentContext) (k : Nat)
    (h : ev k ≠ "sufficient")
    (h2 : (after_reflect ev c k).retries < (after_reflect ev c k).max_retries) :
    transition AgentState.REFLECT (after_reflect ev c k) = AgentState.EXECUTE_TOOL := by
  simp only [transition]
  rw [if_neg, if_pos h2]
  rw [after_reflect_evaluation]
  simpa using h

theorem transition_reflect_exhausted (ev : Nat → String) (c : AgentContext) (k : Nat)
    (h : ev k ≠ "sufficient")
    (h2 : ¬ (after_reflect ev c k).retries < (after_reflect ev c k).max_retries) :
    transition AgentState.REFLECT (after_reflect ev c k) = AgentState.GENERATE := by
  simp only [transition]
  rw [if_neg, if_neg h2]
  rw [after_reflect_evaluation]
  simpa using h

/-! ## Helper lemmas: one loop cycle from EXECUTE_TOOL -/

theorem run_loop_exec3 (ev : Nat → String) (c : AgentContext) (k fuel : Nat) (tr : List Config)
    (h : run_loop ev fuel
        { state := transition AgentState.REFLECT (after_reflect ev c k),
          ctx := after_reflect ev c k, evalIdx := k + 1 } = Option.some (Except.ok tr)) :
    run_loop ev (fuel + 3) { state := AgentState.EXECUTE_TOOL, ctx := c, evalIdx := k } =
      Option.some (Except.ok
        ({ state := AgentState.EXECUTE_TOOL, ctx := c, evalIdx := k } ::
         { state := AgentState.EVALUATE, ctx := execute_tool_step c, evalIdx := k } ::
         { state := AgentState.REFLECT, ctx := cycle_ctx ev c k, evalIdx := k + 1 } :: tr)) := by
  have h1 := run_loop_cons ev _ _ fuel tr (by simp)
    (machine_step_REFLECT ev (cycle_ctx ev c k) (k + 1)) h
  have h2 := run_loop_cons ev _ _ (fuel + 1) _ (by simp)
    (machine_step_EVALUATE ev (execute_tool_step c) k) h1
  exact run_loop_cons ev _ _ (fuel + 2) _ (by simp) (machine_step_EXECUTE ev c k) h2

/-- A cycle whose REFLECT transition lands in GENERATE finishes the
run in five more states. -/
theorem loop_finish (ev : Nat → String) (c : AgentContext) (k : Nat)
    (htrans : transition AgentState.REFLECT (after_reflect ev c k) = AgentState.GENERATE) :
    run_loop ev 5 { state := AgentState.EXECUTE_TOOL, ctx := c, evalIdx := k } =
      Option.some (Except.ok
        [{ state := AgentState.EXECUTE_TOOL, ctx := c, evalIdx := k },
         { state := AgentState.EVALUATE, ctx := execute_tool_step c, evalIdx := k },
         { state := AgentState.REFLECT, ctx := cycle_ctx ev c k, evalIdx := k + 1 },
         { state := AgentState.GENERATE, ctx := after_reflect ev c k, evalIdx := k + 1 },
         { state := AgentState.END, ctx := after_reflect ev c k, evalIdx := k + 1 }]) := by
  have hgen := run_loop_gen2 ev (after_reflect ev c k) (k + 1) 0
  have hX : run_loop ev 2
      { state := transition AgentState.REFLECT (after_reflect ev c k),
        ctx := after_reflect ev c k, evalIdx := k + 1 } =
      Option.some (Except.ok
        [{ state := AgentState.GENERATE, ctx := after_reflect ev c k, evalIdx := k + 1 },
         { state := AgentState.END, ctx := after_reflect ev c k, evalIdx := k + 1 }]) := by
    rw [htrans]; exact hgen
  exact run_loop_exec3 ev c k 2 _ hX

/-- From EXECUTE_TOOL, with `d` covering the remaining retry budget
(`max_retries ≤ retries + d`), the loop reaches END: fuel `3 * d + 5`
suffices and the remaining trace has at most `3 * d + 5` states. Each
insufficient REFLECT increments `retries`, shrinking the budget. -/
theorem loop_reaches (ev : Nat → String) :
    ∀ d : Nat, ∀ c : AgentContext, ∀ k : Nat,
    c.max_retries ≤ c.retries + d →
    ∃ tr : List Config,
      run_loop ev (3 * d + 5) { state := AgentState.EXECUTE_TOOL, ctx := c, evalIdx := k } =
        Option.some (Except.ok tr) ∧
      tr.length ≤ 3 * d + 5 ∧
      (lastConfig tr).map Config.state = Option.some AgentState.END := by
  intro d
  induction d with
  | zero =>
    intro c k hd
    have hge := after_reflect_retries_ge ev c k
    have hmax := after_reflect_max ev c k
    have htrans : transition AgentState.REFLECT (after_reflect ev c k) =
        AgentState.GENERATE := by
      by_cases hv : ev k = "sufficient"
      · exact transition_reflect_suff ev c k hv
      · exact transition_reflect_exhausted ev c k hv (by omega)
    refine ⟨_, run_loop_mono ev 5 (3 * 0 + 5) _ _ (by omega) (loop_finish ev c k htrans),
      ?_, ?_⟩
    · simp only [List.length_cons, List.length_nil]
      omega
    · rfl
  | succ d ih =>
    intro c k hd
    by_cases hv : ev k = "sufficient"
    · refine ⟨_, run_loop_mono ev 5 (3 * (d + 1) + 5) _ _ (by omega)
        (loop_finish ev c k (transition_reflect_suff ev c k hv)), ?_, ?_⟩
      · simp only [List.length_cons, List.length_nil]
        omega
      · rfl
    · have hr3 := after_reflect_retries_of_ne ev c k hv
      have hmax := after_reflect_max ev c k
      by_cases hlt : (after_reflect ev c k).retries < (after_reflect ev c k).max_retries
      · have htrans := transition_reflect_retry ev c k hv hlt
        obtain ⟨tr2, htr2, hlen2, hlast2⟩ := ih (after_reflect ev c k) (k + 1) (by omega)
        have hX : run_loop ev (3 * d + 5)
            { state := transition AgentState.REFLECT (after_reflect ev c k),
              ctx := after_reflect ev c k, evalIdx := k + 1 } =
            Option.some (Except.ok tr2) := by
          rw [htrans]; exact htr2
        have h5 := run_loop_exec3 ev c k (3 * d + 5) tr2 hX
        obtain ⟨cl, hcl, hclstate⟩ : ∃ cl, lastConfig tr2 = Option.some cl ∧
            cl.state = AgentState.END := by
          cases hlc : lastConfig tr2 with
          | none => rw [hlc] at hlast2; simp at hlast2
          | some cl =>
            rw [hlc] at hlast2
            exact ⟨cl, rfl, by simpa using hlast2⟩
        have heq : 3 * (d + 1) + 5 = 3 * d + 5 + 3 := by omega
        rw [heq]
        refine ⟨_, h5, ?_, ?_⟩
        · simp only [List.length_cons]
          omega
        · rw [lastConfig_cons _ _ cl (lastConfig_cons _ _ cl (lastConfig_cons _ _ cl hcl))]
          simp [hclstate]
      · have htrans := transition_reflect_exhausted ev c k hv hlt
        refine ⟨_, run_loop_mono ev 5 (3 * (d + 1) + 5) _ _ (by omega)
          (loop_finish ev c k htrans), ?_, ?_⟩
        · simp only [List.length_cons, List.length_nil]
          omega
        · rfl

/-- The source's controller (its `_evaluate` is always sufficient) on
any non-empty query passes through exactly the seven configurations of
`codeTrace`. -/
theorem code_run_seven (q : String) (h : q ≠ "") :
    run_loop code_evaluation 7 (init_config q) = Option.some (Except.ok (codeTrace q)) := by
  have h6 : run_loop code_evaluation 6
      { state := AgentState.PLAN, ctx := { user_query := q }, evalIdx := 0 } =
      Option.some (Except.ok (codeTrace q).tail) := rfl
  have h0 : machine_step code_evaluation (init_config q) =
      Except.ok { state := AgentState.PLAN, ctx := { user_query := q }, evalIdx := 0 } :=
    machine_step_ENTRY code_evaluation { user_query := q } 0 h
  exact run_loop_cons code_evaluation _ _ 6 _ (by simp [init_config]) h0 h6

/-- The GENERATE handler is the source's placeholder no-op: it maps
every GENERATE configuration to itself. -/
theorem step_generate_noop (ev : Nat → String) (cfg : Config)
    (h : cfg.state = AgentState.GENERATE) : step_in_state ev cfg = Except.ok cfg := by
  obtain ⟨st, c, k⟩ := cfg
  simp only at h
  subst h
  rfl

/-! ## Claims about the agent state machine -/

/-- Claim C8: for every empty goal string, the run fails with the
typed ValueError (the InvalidGoalError of the spec) raised in ENTRY
before any state transition occurs: the very first machine step aborts
without producing a successor configuration, so no handler has run and
the context is unmutated (no plan, no tool results, no evaluation,
retries unchanged). Stated for every evaluation strategy, every
evaluation index, and every positive fuel. -/
theorem C8_empty_goal_aborts (ev : Nat → String) (c : AgentContext) (k fuel : Nat)
    (h : c.user_query = "") (hf : 1 ≤ fuel) :
    run_loop ev fuel { state := AgentState.ENTRY, ctx := c, evalIdx := k } =
      Option.some (Except.error ("user_query must be non-empty")) ∧
    machine_step ev { state := AgentState.ENTRY, ctx := c, evalIdx := k } =
      Except.error ("user_query must be non-empty") := by
  have hstep : machine_step ev { state := AgentState.ENTRY, ctx := c, evalIdx := k } =
      Except.error ("user_query must be non-empty") := by
    simp [machine_step, step_in_state, h]
  refine ⟨?_, hstep⟩
  obtain ⟨f, rfl⟩ : ∃ f, fuel = f + 1 := ⟨fuel - 1, by omega⟩
  simp [run_loop, hstep]

/-- Claim C8 witness: the concrete empty-goal run aborts at once. -/
theorem C8_witness :
    run_loop code_evaluation 1
      { state := AgentState.ENTRY, ctx := { user_query := "" }, evalIdx := 0 } =
      Option.some (Except.error ("user_query must be non-empty")) ∧
    machine_step code_evaluation
      { state := AgentState.ENTRY, ctx := { user_query := "" }, evalIdx := 0 } =
      Except.error ("user_query must be non-empty") :=
  C8_empty_goal_aborts code_evaluation { user_query := "" } 0 1 rfl (by omega)

/-- Claim C9: for every non-empty user_query, run_once returns the
fully deterministic placeholder outcome: intent answer_user_query,
plan [mock_sql], exactly one tool result (the mock_sql placeholder),
evaluation sufficient, and retries 0 — independent of the query text,
which only echoes through user_query. -/
theorem C9_run_once_deterministic (q : String) (h : q ≠ "") :
    run_once q = Option.some
      { user_query := q
        intent := Option.some ("answer_user_query")
        planned_tools := ["mock_sql"]
        tool_results := ["mock_sql_result_placeholder"]
        evaluation := Option.some ("sufficient")
        retries := 0
        max_retries := 1 } := by
  unfold run_once
  rw [code_run_seven q h]
  rfl

/-- Claim C9 witness at the demo query. -/
theorem C9_witness :
    run_once "demo query" = Option.some
      { user_query := "demo query"
        intent := Option.some ("answer_user_query")
        planned_tools := ["mock_sql"]
        tool_results := ["mock_sql_result_placeholder"]
        evaluation := Option.some ("sufficient")
        retries := 0
        max_retries := 1 } :=
  C9_run_once_deterministic "demo query" (by decide)

/-- Claim C2, evaluated on the code at the claim's own scenario:
max_retries 1 and every verdict insufficient. The run visits
EXECUTE_TOOL exactly once — not twice as claimed — while retries ends
at 1 and END is reached. `_reflect` increments retries before
`_transition` compares it to max_retries, so the whole retry budget is
consumed without an actual second execution. -/
theorem C2_single_execution_on_budget_one :
    (run_loop insufficient_evaluation 7 (init_config_with "demo query" 1)).map
      (Except.map (fun tr =>
        (tr.countP (fun cfg => decide (cfg.state = AgentState.EXECUTE_TOOL)),
         (lastConfig tr).map (fun cfg => (cfg.state, cfg.ctx.retries))))) =
    Option.some (Except.ok (1, Option.some (AgentState.END, 1))) := rfl

/-- Claim C3, evaluated on the code at the failing input: with
max_retries 0 and an insufficient verdict, the final context has
retries 1 and max_retries 0, violating the claimed invariant
retries ≤ max_retries (the same pre-check increment as in C2). -/
theorem C3_retries_exceed_budget_zero :
    (run_loop insufficient_evaluation 7 (init_config_with "demo query" 0)).map
      (Except.map (fun tr =>
        (lastConfig tr).map (fun cfg => (cfg.ctx.retries, cfg.ctx.max_retries)))) =
    Option.some (Except.ok (Option.some (1, 0))) ∧ ¬ (1 ≤ 0) :=
  ⟨rfl, by omega⟩

/-- Claim C4 counterexample: with max_retries 0 the claimed bound is
3 + 2*0 = 3 state visits, but the run enters 7 configurations (ENTRY,
PLAN, EXECUTE_TOOL, EVALUATE, REFLECT, GENERATE, END); even counting
only the five interior states — neither ENTRY nor END — the bound 3 is
exceeded, so the bound fails under any counting convention. -/
theorem C4_counterexample :
    (run_loop insufficient_evaluation 7 (init_config_with "demo query" 0)).map
      (Except.map List.length) = Option.some (Except.ok 7) ∧
    (run_loop insufficient_evaluation 7 (init_config_with "demo query" 0)).map
      (Except.map (fun tr => tr.countP (fun cfg =>
        decide (cfg.state ≠ AgentState.ENTRY) && decide (cfg.state ≠ AgentState.END)))) =
      Option.some (Except.ok 5) ∧
    ¬ (7 ≤ 3 + 2 * 0) ∧ ¬ (5 ≤ 3 + 2 * 0) :=
  ⟨rfl, rfl, by omega, by omega⟩

/-- Claim C4 (amended): for every evaluation strategy, every
max_retries value m and every non-empty goal, the run from ENTRY
reaches END within 3*m + 7 state visits (every entered configuration
counted, ENTRY and END included), and in particular the loop always
terminates. The spec's bound 3 + 2*m is too small even for the default
run (see the counterexample); each extra retry cycle costs three
visits on top of the seven of a retry-free run. -/
theorem C4_run_terminates_bounded (ev : Nat → String) (q : String) (m : Nat) (h : q ≠ "") :
    ∃ tr : List Config,
      run_loop ev (3 * m + 7) (init_config_with q m) = Option.some (Except.ok tr) ∧
      tr.length ≤ 3 * m + 7 ∧
      (lastConfig tr).map Config.state = Option.some AgentState.END := by
  obtain ⟨tr2, htr2, hlen2, hlast2⟩ :=
    loop_reaches ev m (plan_step { user_query := q, max_retries := m }) 0 (by simp [plan_step])
  have h1 : machine_step ev
      { state := AgentState.PLAN, ctx := { user_query := q, max_retries := m }, evalIdx := 0 } =
      Except.ok { state := AgentState.EXECUTE_TOOL,
                  ctx := plan_step { user_query := q, max_retries := m }, evalIdx := 0 } :=
    machine_step_PLAN ev { user_query := q, max_retries := m } 0
  have hp := run_loop_cons ev _ _ (3 * m + 5) _ (by simp) h1 htr2
  have h0 : machine_step ev (init_config_with q m) =
      Except.ok { state := AgentState.PLAN,
                  ctx := { user_query := q, max_retries := m }, evalIdx := 0 } :=
    machine_step_ENTRY ev { user_query := q, max_retries := m } 0 h
  have he := run_loop_cons ev _ _ (3 * m + 5 + 1) _ (by simp [init_config_with]) h0 hp
  obtain ⟨cl, hcl, hclstate⟩ : ∃ cl, lastConfig tr2 = Option.some cl ∧
      cl.state = AgentState.END := by
    cases hlc : lastConfig tr2 with
    | none => rw [hlc] at hlast2; simp at hlast2
    | some cl =>
      rw [hlc] at hlast2
      exact ⟨cl, rfl, by simpa using hlast2⟩
  have heq : 3 * m + 7 = 3 * m + 5 + 1 + 1 := by omega
  rw [heq]
  refine ⟨_, he, ?_, ?_⟩
  · simp only [List.length_cons]
    omega
  · rw [lastConfig_cons _ _ cl (lastConfig_cons _ _ cl hcl)]
    simp [hclstate]

/-- Claim C4 witness at a concrete strategy, goal, and budget. -/
theorem C4_witness :
    ∃ tr : List Config,
      run_loop insufficient_evaluation (3 * 1 + 7) (init_config_with "demo query" 1) =
        Option.some (Except.ok tr) ∧
      tr.length ≤ 3 * 1 + 7 ∧
      (lastConfig tr).map Config.state = Option.some AgentState.END :=
  C4_run_terminates_bounded insufficient_evaluation "demo query" 1 (by decide)

/-- Claim C1 counterexample: on the concrete run, the context entering
GENERATE equals the final context returned at END, and the GENERATE
handler maps its configuration to itself — GENERATE sets nothing. The
embedded AgentContext mirrors the source dataclass, which has no
response field for GENERATE to set (`_generate` is `pass`), refuting
that the returned context has a response set by the GENERATE state. -/
theorem C1_counterexample :
    (run_loop code_evaluation 7 (init_config "demo query")).map
      (Except.map (fun tr =>
        ((tr.filter (fun cfg => decide (cfg.state = AgentState.GENERATE))).map Config.ctx,
         (lastConfig tr).map Config.ctx))) =
    Option.some (Except.ok ([code_final_ctx "demo query"],
      Option.some (code_final_ctx "demo query"))) ∧
    step_in_state code_evaluation
      { state := AgentState.GENERATE, ctx := code_final_ctx "demo query", evalIdx := 1 } =
      Except.ok { state := AgentState.GENERATE, ctx := code_final_ctx "demo query",
                  evalIdx := 1 } :=
  ⟨rfl, rfl⟩

/-- Claim C1 (amended): for every non-empty goal, the run terminates
and returns a final AgentContext, visiting GENERATE before END; but
the GENERATE handler is the source's placeholder no-op, so it mutates
nothing, and the embedded AgentContext (like the source dataclass) has
no response field for it to set. -/
theorem C1_terminates_generate_noop (q : String) (fuel : Nat) (h : q ≠ "") (hf : 7 ≤ fuel) :
    ∃ tr : List Config,
      run_loop code_evaluation fuel (init_config q) = Option.some (Except.ok tr) ∧
      (∃ cfg ∈ tr, cfg.state = AgentState.GENERATE) ∧
      (lastConfig tr).map Config.state = Option.some AgentState.END ∧
      ∀ cfg ∈ tr, cfg.state = AgentState.GENERATE →
        step_in_state code_evaluation cfg = Except.ok cfg := by
  refine ⟨codeTrace q,
    run_loop_mono code_evaluation 7 fuel _ _ hf (code_run_seven q h), ?_, rfl, ?_⟩
  · exact ⟨{ state := AgentState.GENERATE, ctx := code_final_ctx q, evalIdx := 1 },
      by simp [codeTrace], rfl⟩
  · intro cfg hmem hgen
    exact step_generate_noop code_evaluation cfg hgen

/-- Claim C1 witness at the demo query with the minimal fuel. -/
theorem C1_witness :
    ∃ tr : List Config,
      run_loop code_evaluation 7 (init_config "demo query") =
        Option.some (Except.ok tr) ∧
      (∃ cfg ∈ tr, cfg.state = AgentState.GENERATE) ∧
      (lastConfig tr).map Config.state = Option.some AgentState.END ∧
      ∀ cfg ∈ tr, cfg.state = AgentState.GENERATE →
        step_in_state code_evaluation cfg = Except.ok cfg :=
  C1_terminates_generate_noop "demo query" 7 (by decide) (by omega)

/-! ## Helper lemmas: association-list lookup -/

theorem dict_get?_eq_none (d : List (String × α)) (key : String)
    (h : dict_contains d key = false) : dict_get? d key = Option.none := by
  induction d with
  | nil => rfl
  | cons kv rest ih =>
    simp only [dict_contains, List.any_cons, Bool.or_eq_false_iff] at h
    obtain ⟨h1, h2⟩ := h
    have hrest : dict_get? rest key = Option.none := ih h2
    simp only [dict_get?, List.find?]
    rw [h1]
    exact hrest

theorem dict_get?_isSome_of_contains (d : List (String × α)) (key : String)
    (h : dict_contains d key = true) : ∃ v, dict_get? d key = Option.some v := by
  induction d with
  | nil => simp [dict_contains] at h
  | cons kv rest ih =>
    by_cases h1 : (kv.1 == key) = true
    · refine ⟨kv.2, ?_⟩
      simp only [dict_get?, List.find?]
      rw [h1]
      rfl
    · have h1f : (kv.1 == key) = false := by simpa using h1
      have h2 : dict_contains rest key = true := by
        simp only [dict_contains, List.any_cons] at h ⊢
        simpa [h1f] using h
      obtain ⟨v, hv⟩ := ih h2
      refine ⟨v, ?_⟩
      simp only [dict_get?, List.find?]
      rw [h1f]
      exact hv

theorem dict_get?_append_fresh (d : List (String × α)) (key : String) (v : α)
    (h : dict_contains d key = false) :
    dict_get? (d ++ [(key, v)]) key = Option.some v := by
  induction d with
  | nil =>
    simp only [List.nil_append, dict_get?, List.find?]
    rw [show (key == key) = true by simp]
    rfl
  | cons kv rest ih =>
    simp only [dict_contains, List.any_cons, Bool.or_eq_false_iff] at h
    obtain ⟨h1, h2⟩ := h
    have hrest := ih h2
    simp only [dict_get?, List.cons_append, List.find?]
    rw [h1]
    exact hrest

/-! ## Claims about the tool registry and executor -/

/-- Claim C5: for every registry and request, execute returns a
structured ToolResult and converts every failure mode into
ok false with an error message instead of propagating it: a failed
lookup yields the stringified KeyError, a validation violation yields
the validation message, and an exception from the tool body yields its
message; in particular an unregistered tool name yields ok false. -/
theorem C5_execute_never_raises (r : ToolRegistry) (request : ToolRequest) :
    ((ToolExecutor.execute r request).ok = false →
      (ToolExecutor.execute r request).error ≠ Option.none) ∧
    (dict_contains r.tools request.tool_name = false →
      ToolExecutor.execute r request =
        { tool_name := request.tool_name, ok := false, data := [],
          error := Option.some (py_keyerror_str ("Tool not found: " ++ request.tool_name)) }) ∧
    (∀ tool : Tool, r.get_tool request.tool_name = Except.ok tool →
      ∀ e : String, validate_params tool request.params = Option.some e →
        ToolExecutor.execute r request =
          { tool_name := tool.name, ok := false, data := [], error := Option.some e }) ∧
    (∀ tool : Tool, r.get_tool request.tool_name = Except.ok tool →
      validate_params tool request.params = Option.none →
      ∀ msg : String, tool.run request.params = Except.error msg →
        ToolExecutor.execute r request =
          { tool_name := tool.name, ok := false, data := [], error := Option.some msg }) := by
  refine ⟨?_, ?_, ?_, ?_⟩
  · intro hok
    cases hg : r.get_tool request.tool_name with
    | error msg => simp [ToolExecutor.execute, hg]
    | ok tool =>
      cases hv : validate_params tool request.params with
      | some e => simp [ToolExecutor.execute, hg, hv]
      | none =>
        cases hr : tool.run request.params with
        | error msg => simp [ToolExecutor.execute, hg, hv, hr]
        | ok output => simp [ToolExecutor.execute, hg, hv, hr] at hok
  · intro h
    have hnone : dict_get? r.tools request.tool_name = Option.none := dict_get?_eq_none _ _ h
    simp [ToolExecutor.execute, ToolRegistry.get_tool, hnone]
  · intro tool hok e hval
    simp [ToolExecutor.execute, hok, hval]
  · intro tool hok hval msg hrun
    simp [ToolExecutor.execute, hok, hval, hrun]

/-- Claim C5 witness: executing an unregistered name on the empty
registry yields the structured ok-false result. -/
theorem C5_witness :
    ToolExecutor.execute { tools := [] } { tool_name := "mock_sql", params := [] } =
      { tool_name := "mock_sql", ok := false, data := [],
        error := Option.some (py_keyerror_str ("Tool not found: mock_sql")) } :=
  (C5_execute_never_raises { tools := [] } { tool_name := "mock_sql", params := [] }).2.1 rfl

/-- Claim C7: registering a tool whose name is already present fails
with the typed ValueError (the DuplicateToolError of the spec) — also
for any other definition carrying the same name — and since the
failure happens before any insertion, the registry value is unchanged,
so the first-registered definition stays the one retrieved; a fresh
name is appended and is then found by get_tool. -/
theorem C7_register_duplicate_rejected (r : ToolRegistry) (tool : Tool) :
    (dict_contains r.tools tool.name = true →
      r.register_tool tool = Except.error ("Tool already registered: " ++ tool.name)) ∧
    (∀ tool2 : Tool, tool2.name = tool.name → dict_contains r.tools tool.name = true →
      r.register_tool tool2 = Except.error ("Tool already registered: " ++ tool2.name)) ∧
    (dict_contains r.tools tool.name = false →
      r.register_tool tool = Except.ok { tools := r.tools ++ [(tool.name, tool)] } ∧
      ToolRegistry.get_tool { tools := r.tools ++ [(tool.name, tool)] } tool.name =
        Except.ok tool) := by
  refine ⟨?_, ?_, ?_⟩
  · intro h
    simp [ToolRegistry.register_tool, h]
  · intro tool2 hname h
    simp [ToolRegistry.register_tool, hname, h]
  · intro h
    refine ⟨by simp [ToolRegistry.register_tool, h], ?_⟩
    simp [ToolRegistry.get_tool, dict_get?_append_fresh _ _ _ h]

/-- Claim C7 witness: re-registering mock_sql on the demo registry is
rejected with the duplicate message. -/
theorem C7_witness :
    demo_registry.register_tool MockSQLTool =
      Except.error ("Tool already registered: mock_sql") :=
  (C7_register_duplicate_rejected demo_registry MockSQLTool).1 rfl

/-- Claim C10: the executor's type check accepts runtime subtypes: a
Python bool passes an isinstance check against int, so executing
mock_sql with any query string and the boolean True as limit passes
validation and returns ok true (True slices the row list as 1). -/
theorem C10_bool_passes_int_schema (s : String) (b : Bool) :
    isinstance (PyVal.bool b) PyType.int = true ∧
    validate_params MockSQLTool [("query", PyVal.str s), ("limit", PyVal.bool true)] =
      Option.none ∧
    ToolExecutor.execute demo_registry
      { tool_name := "mock_sql",
        params := [("query", PyVal.str s), ("limit", PyVal.bool true)] } =
      { tool_name := "mock_sql", ok := true,
        data := [("rows", PyVal.list [PyVal.dict [("id", PyVal.int 1),
                   ("value", PyVal.str "alpha")]]),
                 ("query", PyVal.str s)] } := by
  refine ⟨?_, rfl, rfl⟩
  cases b <;> rfl

/-! ## Helper lemmas: the validation loops return the first violation -/

theorem check_unexpected_eq_spec (schema : List (String × PyType)) :
    ∀ ps : List (String × PyVal),
    check_unexpected schema ps = spec_unexpected_key schema ps := by
  intro ps
  induction ps with
  | nil => rfl
  | cons kv rest ih =>
    obtain ⟨key, v⟩ := kv
    cases hdc : dict_contains schema key with
    | true => simp [check_unexpected, spec_unexpected_key, List.find?, hdc, ih]
    | false => simp [check_unexpected, spec_unexpected_key, List.find?, hdc]

theorem check_missing_eq_spec (params : List (String × PyVal)) :
    ∀ req : List String, check_missing params req = spec_missing_key req params := by
  intro req
  induction req with
  | nil => rfl
  | cons key rest ih =>
    cases hdc : dict_contains params key with
    | true => simp [check_missing, spec_missing_key, List.find?, hdc, ih]
    | false => simp [check_missing, spec_missing_key, List.find?, hdc]

theorem check_unexpected_none_all (schema : List (String × PyType)) :
    ∀ ps : List (String × PyVal), check_unexpected schema ps = Option.none →
    ∀ kv ∈ ps, dict_contains schema kv.1 = true := by
  intro ps
  induction ps with
  | nil => intro _ kv hkv; simp at hkv
  | cons hd rest ih =>
    obtain ⟨key, v⟩ := hd
    intro h kv hkv
    cases hdc : dict_contains schema key with
    | false => simp [check_unexpected, hdc] at h
    | true =>
      simp only [check_unexpected, hdc, if_true] at h
      rcases List.mem_cons.mp hkv with rfl | hmem
      · simpa using hdc
      · exact ih h kv hmem

theorem check_types_eq_spec (schema : List (String × PyType)) :
    ∀ ps : List (String × PyVal), (∀ kv ∈ ps, dict_contains schema kv.1 = true) →
    check_types schema ps = spec_bad_type schema ps := by
  intro ps
  induction ps with
  | nil => intro _; rfl
  | cons hd rest ih =>
    obtain ⟨key, v⟩ := hd
    intro hall
    have hk : dict_contains schema key = true := by simpa using hall (key, v) (by simp)
    obtain ⟨t, ht⟩ := dict_get?_isSome_of_contains schema key hk
    have hrest := ih (fun kv hkv => hall kv (List.mem_cons_of_mem _ hkv))
    cases hi : isinstance v t with
    | true => simp [check_types, spec_bad_type, List.find?, ht, hi, hrest]
    | false => simp [check_types, spec_bad_type, List.find?, ht, hi]

/-- Claim C6 counterexample: the error string the code produces for
mock_sql with empty params is capitalized (Missing required parameter)
and therefore differs from the lowercase string the claim demands. -/
theorem C6_counterexample :
    (ToolExecutor.execute demo_registry { tool_name := "mock_sql", params := [] }).error =
      Option.some ("Missing required parameter: query") ∧
    Option.some ("Missing required parameter: query") ≠
      Option.some ("missing required parameter: query") :=
  ⟨rfl, by decide⟩

/-- Claim C6 (amended): validation stops at the first violation,
checked in the order unexpected keys, then missing required keys, then
type mismatches of present values, keys in their natural (insertion)
iteration order — stated as equality with the spec-side first-violation
function — and the error strings are exactly the code's capitalized
"Unexpected parameter: key", "Missing required parameter: key" and
"Invalid type for key: expected type"; in particular executing
mock_sql with empty params returns ok false with error
"Missing required parameter: query". -/
theorem C6_validation_order_and_messages :
    (∀ (tool : Tool) (params : List (String × PyVal)),
      validate_params tool params = spec_first_violation tool params) ∧
    ToolExecutor.execute demo_registry { tool_name := "mock_sql", params := [] } =
      { tool_name := "mock_sql", ok := false, data := [],
        error := Option.some ("Missing required parameter: query") } := by
  refine ⟨?_, rfl⟩
  intro tool params
  unfold validate_params spec_first_violation
  rw [check_unexpected_eq_spec tool.param_schema params,
    check_missing_eq_spec params tool.required_params]
  cases hu : spec_unexpected_key tool.param_schema params with
  | some e => rfl
  | none =>
    cases hm : spec_missing_key tool.required_params params with
    | some e => rfl
    | none =>
      exact check_types_eq_spec tool.param_schema params
        (check_unexpected_none_all tool.param_schema params
          (by rw [check_unexpected_eq_spec tool.param_schema params]; exact hu))

end ControlPlane
